import Mathlib

/-!
Verification of the client-side message synchronization layer of a
two-party messaging UI (src/src/App.jsx), against its natural-language
specification.  The relevant state of the open conversation is the
`messages` array of ChatView; the operations embedded below are the pieces
of code that mutate it (ChatView.load, ChatView.send and its success and
failure continuations), the InputBar validation, the http transport helper,
the two polling loop cleanups, and the local-profile accessor.
-/

namespace ChatApp

/-- A message as rendered by ChatView: the fields of both server messages
and optimistic entries constructed in ChatView.send (id, text, sender_id,
conversation_id). -/
structure Message where
  id : String
  text : String
  sender_id : String
  conversation_id : String
deriving DecidableEq, Repr

/-- A conversation as consumed by the Home view (id, participant ids,
denormalized preview of the last message). -/
structure Conversation where
  id : String
  participant_ids : List String
  last_message_preview : String
deriving DecidableEq, Repr

/-- The ids of the rendered message list, in render order. -/
def ids (st : List Message) : List String :=
  st.map (fun m => m.id)

/-- The "mine" flag computed for each rendered bubble in ChatView:
`mine = (m.sender_id === me.id)` (App.jsx line 238). -/
def mineFlag (meId : String) (m : Message) : Bool :=
  m.sender_id == meId

/- ### JS string trimming (InputBar.send, App.jsx lines 71 to 77) -/

/-- Character-list form of JavaScript String.prototype.trim: remove leading
and trailing whitespace characters. -/
def trimChars (l : List Char) : List Char :=
  ((l.dropWhile Char.isWhitespace).reverse.dropWhile Char.isWhitespace).reverse

/-- JavaScript `text.trim()` as used by InputBar.send. -/
def trimStr (s : String) : String :=
  String.mk (trimChars s.data)

/-- InputBar.send (App.jsx lines 71 to 77): trim the draft text; when the
trimmed text is empty, return without calling onSend; otherwise pass the
trimmed text to onSend.  `none` means onSend was never invoked. -/
def inputBarSend (text : String) : Option String :=
  let t := trimStr text
  if t = "" then none else some t

/- ### Decimal rendering of the timestamp (the template literal in
`tmp-${Date.now()}`, App.jsx line 219) -/

/-- Digit characters of a natural number, most significant first.
Translates the JavaScript number-to-string conversion performed by the
template literal for a (nonnegative integral) timestamp. -/
def natToStringData (n : Nat) : List Char :=
  if n = 0 then ['0'] else ((Nat.digits 10 n).map Nat.digitChar).reverse

/-- Decimal string of a natural number (JS template-literal rendering). -/
def natToString (n : Nat) : String :=
  String.mk (natToStringData n)

/-- The optimistic local id generated in ChatView.send:
`tmp-${Date.now()}` (App.jsx line 219). -/
def optimisticId (now : Nat) : String :=
  "tmp-" ++ natToString now

/-- The optimistic message materialized in ChatView.send (App.jsx line
219): local id from the clock, the submitted text, the active user as
sender, the open conversation. -/
def mkOptimistic (now : Nat) (text meId convId : String) : Message :=
  { id := optimisticId now, text := text, sender_id := meId, conversation_id := convId }

/- ### The state transitions of ChatView's messages array -/

/-- ChatView.load (App.jsx lines 205 to 210): `setMessages(msgs)` replaces
the whole rendered list with the fetched batch. -/
def chatLoad (msgs : List Message) (_st : List Message) : List Message :=
  msgs

/-- The optimistic append in ChatView.send (App.jsx line 220):
`setMessages(prev => [...prev, optimistic])`. -/
def sendStart (optimistic : Message) (st : List Message) : List Message :=
  st ++ [optimistic]

/-- The success continuation of ChatView.send (App.jsx line 224):
`setMessages(prev => prev.map(m => m.id === optimistic.id ? sent : m))`. -/
def sendOk (optimisticId : String) (sent : Message) (st : List Message) : List Message :=
  st.map (fun m => if m.id == optimisticId then sent else m)

/-- The failure continuation of ChatView.send (App.jsx line 226):
`setMessages(prev => prev.filter(m => m.id !== optimistic.id))`. -/
def sendErr (optimisticId : String) (st : List Message) : List Message :=
  st.filter (fun m => m.id != optimisticId)

/-- One asynchronous completion interleaved into the single-threaded event
loop: an optimistic append, a send resolution (success or failure), or the
application of a polled confirmed batch. -/
inductive Ev where
  | start (optimistic : Message)
  | ok (optId : String) (sent : Message)
  | err (optId : String)
  | poll (batch : List Message)
deriving DecidableEq, Repr

/-- The effect of one event on the messages array, exactly as the four
setMessages call sites of App.jsx perform it. -/
def step (st : List Message) : Ev → List Message
  | Ev.start optimistic => sendStart optimistic st
  | Ev.ok optId sent => sendOk optId sent st
  | Ev.err optId => sendErr optId st
  | Ev.poll batch => chatLoad batch st

/-- Run a sequence of interleaved events from a starting state. -/
def run (st : List Message) (evs : List Ev) : List Message :=
  evs.foldl step st

/-- Number of rendered entries carrying a given text and sender. -/
def countTextSender (st : List Message) (text meId : String) : Nat :=
  (st.filter (fun m => m.text == text && m.sender_id == meId)).length

/- ### InputBar plus ChatView.send, composed (the submit intent) -/

/-- Submitting the draft `text`: InputBar.send validates and trims; when it
rejects, no network call happens and the state is untouched; when it
accepts, ChatView.send materializes the optimistic entry and issues the
network call.  The Bool records whether a network call was issued. -/
def submit (text : String) (now : Nat) (meId convId : String)
    (st : List Message) : List Message × Bool :=
  match inputBarSend text with
  | none => (st, false)
  | some t => (sendStart (mkOptimistic now t meId convId) st, true)

/- ### The http transport helper (App.jsx lines 5 to 15) -/

/-- The http helper: on a non-ok response it throws
`new Error(text || "Request failed: " + status)` where `text` is the
response body; on an ok response it returns the parsed JSON body.  The
thrown value is modelled as the error string it carries. -/
def http {α : Type} (ok : Bool) (status : Nat) (text : String) (body : α) :
    Except String α :=
  if ok then Except.ok body
  else Except.error (if text = "" then "Request failed: " ++ natToString status else text)

/- ### The polling loop cleanups (App.jsx lines 212 to 216 and 250 to 256) -/

/-- State owned by the Home conversation-list polling loop: `onFlag` is
the `let on = true` variable captured by the effect closure, next to the
conversations state. -/
structure HomePoll where
  onFlag : Bool
  conversations : List Conversation
deriving DecidableEq, Repr

/-- The Home effect cleanup (App.jsx line 255): set the closure flag to
false and clearInterval. -/
def homeCleanup (st : HomePoll) : HomePoll :=
  { st with onFlag := false }

/-- A conversation-list fetch response arriving at the Home loop (App.jsx
line 252): `if (on) setConversations(cs)`. -/
def homeResponse (cs : List Conversation) (st : HomePoll) : HomePoll :=
  if st.onFlag then { st with conversations := cs } else st

/-- State owned by the ChatView message polling loop: whether the interval
is still scheduled, and the messages state. -/
structure ChatPoll where
  intervalActive : Bool
  messages : List Message
deriving DecidableEq, Repr

/-- The ChatView effect cleanup (App.jsx line 214): clearInterval only; no
flag guards in-flight responses. -/
def chatCleanup (st : ChatPoll) : ChatPoll :=
  { st with intervalActive := false }

/-- Whether a timer tick of the ChatView loop would issue a fetch: only
while the interval is scheduled. -/
def chatTickFetches (st : ChatPoll) : Bool :=
  st.intervalActive

/-- A message fetch response arriving at the ChatView loop (App.jsx lines
206 to 207): `setMessages(msgs)`, applied unconditionally. -/
def chatResponse (msgs : List Message) (st : ChatPoll) : ChatPoll :=
  { st with messages := msgs }

/- ### The local profile accessor (useLocalUser, App.jsx lines 107 to 116,
and the App gate, lines 323 to 334) -/

/-- The value space of the parsed profile: JSON null, a profile object, or
any other JSON value. -/
inductive StoredProfile where
  | null
  | profile (id username avatar_color : String)
  | other
deriving DecidableEq, Repr

/-- The useLocalUser initializer (App.jsx line 109):
`try { return JSON.parse(localStorage.getItem(..) || null-literal) } catch { return null }`.
`stored` is what getItem returned (`none` for an absent key); `parse` is
the host JSON parser, returning `none` when it throws. -/
def useLocalUserInit (stored : Option String)
    (parse : String → Option StoredProfile) : StoredProfile :=
  let raw := match stored with
    | none => "null"
    | some s => if s = "" then "null" else s
  match parse raw with
  | some v => v
  | none => StoredProfile.null

/-- The App session-start gate (App.jsx line 326): `if (!user) return
Onboard`; JSON null is falsy, a parsed object is truthy. -/
def requiresOnboarding (u : StoredProfile) : Bool :=
  match u with
  | StoredProfile.null => true
  | _ => false

/- ### Helper lemmas -/

/-- Membership in the id projection of the rendered list. -/
lemma mem_ids {st : List Message} {i : String} :
    i ∈ ids st ↔ ∃ m ∈ st, m.id = i := by
  simp [ids]

/-- A fully whitespace draft trims to the empty string. -/
lemma trimStr_of_whitespace {s : String}
    (h : ∀ c ∈ s.data, c.isWhitespace) : trimStr s = "" := by
  have h1 : s.data.dropWhile Char.isWhitespace = [] :=
    List.dropWhile_eq_nil_iff.mpr h
  simp [trimStr, trimChars, h1]

/- ### Claim theorems -/

/-- C4: submitting an input that is empty or consists only of whitespace
through the send path performs no network call and no state change: the
InputBar rejects it before onSend, so no pending entry is created and the
rendered message list is unchanged. -/
theorem claim_C4_whitespace_submit_noop (s : String) (now : Nat)
    (meId convId : String) (st : List Message)
    (h : ∀ c ∈ s.data, c.isWhitespace) :
    submit s now meId convId st = (st, false) := by
  have ht : trimStr s = "" := trimStr_of_whitespace h
  simp [submit, inputBarSend, ht]

/-- Witness for C4 at the concrete whitespace draft of two spaces. -/
theorem claim_C4_witness :
    submit "  " 7 "me" "c9" [] = ([], false) :=
  claim_C4_whitespace_submit_noop "  " 7 "me" "c9" [] (by decide)

/-- C5: when the network submission of a send fails, the failure
continuation removes the optimistic entry and the rendered list equals its
pre-send state, provided no other mutation happened in between and the
fresh local id did not already occur in the pre-send list. -/
theorem claim_C5_failed_send_reverts (st : List Message) (now : Nat)
    (text meId convId : String)
    (h : optimisticId now ∉ ids st) :
    sendErr (optimisticId now) (sendStart (mkOptimistic now text meId convId) st) = st := by
  simp [sendErr, sendStart, List.filter_append, mkOptimistic]
  intro m hm heq
  exact h (mem_ids.mpr ⟨m, hm, heq⟩)

/-- Witness for C5 at the empty pre-send list. -/
theorem claim_C5_witness :
    sendErr (optimisticId 0) (sendStart (mkOptimistic 0 "hi" "me" "c9") []) = [] :=
  claim_C5_failed_send_reverts [] 0 "hi" "me" "c9" (by simp [ids])

/-- C8: applying the same confirmed batch twice in succession produces the
same rendered view as applying it once; ChatView.load replaces the whole
list with the batch, so the second application is a no-op. -/
theorem claim_C8_applyConfirmedBatch_idempotent (st msgs : List Message) :
    run st [Ev.poll msgs, Ev.poll msgs] = run st [Ev.poll msgs] := rfl

/-- C9 counterexample: the error thrown by the http helper for a non-ok
response with a non-empty body is just the body text; two responses with
different statuses produce identical errors, so the error does not carry
the response status. -/
theorem claim_C9_counterexample :
    (500 : Nat) ≠ 404 ∧
      http false 500 "boom" (0 : Nat) = Except.error "boom" ∧
      http false 500 "boom" (0 : Nat) = http false 404 "boom" (0 : Nat) := by
  refine ⟨by decide, ?_, ?_⟩ <;> simp [http]

/-- C9 amended: a non-ok response makes the http helper fail with an error
message equal to the response body text when that text is non-empty, and
with a generic message naming the status only when the body text is empty;
an ok response returns the parsed body.  There is a single attempt and no
retry. -/
theorem claim_C9_http_behavior {α : Type} (ok : Bool) (status : Nat)
    (text : String) (body : α) :
    (ok = true → http ok status text body = Except.ok body) ∧
    (ok = false → text ≠ "" → http ok status text body = Except.error text) ∧
    (ok = false → text = "" →
      http ok status text body = Except.error ("Request failed: " ++ natToString status)) := by
  refine ⟨fun h1 => by simp [http, h1],
    fun h1 h2 => by simp [http, h1, h2],
    fun h1 h2 => by simp [http, h1, h2]⟩

/-- Witness for C9 amended at concrete responses. -/
theorem claim_C9_witness :
    http true 200 "" (7 : Nat) = Except.ok 7 ∧
      http false 500 "boom" (7 : Nat) = Except.error "boom" :=
  ⟨(claim_C9_http_behavior true 200 "" 7).1 rfl,
   (claim_C9_http_behavior false 500 "boom" 7).2.1 rfl (by decide)⟩

/-- C10: a stored profile value that exists but fails to parse is treated
as an absent profile: the accessor returns null (the catch branch), the
result equals the absent-key result, and onboarding is required. -/
theorem claim_C10_corrupt_profile_is_absent (s : String)
    (parse : String → Option StoredProfile)
    (hs : s ≠ "") (hp : parse s = none)
    (hnull : parse "null" = some StoredProfile.null) :
    useLocalUserInit (some s) parse = StoredProfile.null ∧
      useLocalUserInit (some s) parse = useLocalUserInit none parse ∧
      requiresOnboarding (useLocalUserInit (some s) parse) = true := by
  refine ⟨?_, ?_, ?_⟩ <;> simp [useLocalUserInit, hs, hp, hnull, requiresOnboarding]

/-- Witness for C10 at a concrete corrupt stored value and a parser that
accepts only the null literal. -/
theorem claim_C10_witness :
    useLocalUserInit (some "not json")
        (fun x => if x = "null" then some StoredProfile.null else none) = StoredProfile.null ∧
      useLocalUserInit (some "not json")
          (fun x => if x = "null" then some StoredProfile.null else none) =
        useLocalUserInit none
          (fun x => if x = "null" then some StoredProfile.null else none) ∧
      requiresOnboarding (useLocalUserInit (some "not json")
        (fun x => if x = "null" then some StoredProfile.null else none)) = true :=
  claim_C10_corrupt_profile_is_absent "not json"
    (fun x => if x = "null" then some StoredProfile.null else none)
    (by decide) (by decide) (by decide)

/-- C1 counterexample: starting from an empty conversation, the user sends
the text "hello"; the pending echo is visible (one entry with that text and
sender), but when an interleaved message-poll batch (here: the empty
authoritative window, fetched before the server stored the send) is applied
between submission and resolution, the view after successful resolution
contains zero entries with that text and sender, not exactly one. -/
theorem claim_C1_counterexample :
    countTextSender (run [] [Ev.start (mkOptimistic 0 "hello" "me" "c9")]) "hello" "me" = 1 ∧
      countTextSender
        (run [] [Ev.start (mkOptimistic 0 "hello" "me" "c9"), Ev.poll [],
          Ev.ok (optimisticId 0) (Message.mk "101" "hello" "me" "c9")])
        "hello" "me" = 0 := by
  constructor <;> rfl

/-- C1 amended: sending a non-empty text makes a pending entry with that
text, tagged as mine, visible immediately upon submission; and after the
submission resolves successfully the view contains exactly one entry with
that text and sender, provided no message-poll batch was applied between
submission and resolution (an interleaved batch application replaces the
list and can drop the entry), the fresh local id does not occur in the
pre-send list, and the pre-send list has no entry with that text and
sender. -/
theorem claim_C1_pending_echo_then_one (st0 : List Message) (now : Nat)
    (text meId convId : String) (sent : Message)
    (hid : optimisticId now ∉ ids st0)
    (hfresh : ∀ m ∈ st0, ¬(m.text = text ∧ m.sender_id = meId))
    (h1 : sent.text = text) (h2 : sent.sender_id = meId) :
    (∃ m ∈ sendStart (mkOptimistic now text meId convId) st0,
        m.id = optimisticId now ∧ m.text = text ∧ m.sender_id = meId ∧
          mineFlag meId m = true) ∧
      countTextSender
        (sendOk (optimisticId now) sent
          (sendStart (mkOptimistic now text meId convId) st0)) text meId = 1 := by
  constructor
  · refine ⟨mkOptimistic now text meId convId, ?_, ?_⟩
    · simp [sendStart]
    · simp [mkOptimistic, mineFlag]
  · have hmap : st0.map (fun m => if m.id == optimisticId now then sent else m) = st0 := by
      have := List.map_congr_left (l := st0)
        (f := fun m => if m.id == optimisticId now then sent else m) (g := id) ?_
      · simpa using this
      · intro m hm
        have hne : m.id ≠ optimisticId now := by
          intro heq
          exact hid (mem_ids.mpr ⟨m, hm, heq⟩)
        simp [hne]
    have hzero : st0.filter (fun m => m.text == text && m.sender_id == meId) = [] := by
      rw [List.filter_eq_nil_iff]
      intro m hm
      simp only [Bool.and_eq_true, beq_iff_eq]
      intro hcontra
      exact hfresh m hm hcontra
    have hsend : sendOk (optimisticId now) sent
        (sendStart (mkOptimistic now text meId convId) st0) = st0 ++ [sent] := by
      simp only [sendOk, sendStart, List.map_append]
      rw [hmap]
      simp [mkOptimistic]
    rw [hsend]
    simp [countTextSender, List.filter_append, hzero, h1, h2]

/-- Witness for C1 amended: empty pre-send list and a confirmed message
carrying the submitted text and sender. -/
theorem claim_C1_witness :
    (∃ m ∈ sendStart (mkOptimistic 0 "hello" "me" "c9") [],
        m.id = optimisticId 0 ∧ m.text = "hello" ∧ m.sender_id = "me" ∧
          mineFlag "me" m = true) ∧
      countTextSender
        (sendOk (optimisticId 0) (Message.mk "101" "hello" "me" "c9")
          (sendStart (mkOptimistic 0 "hello" "me" "c9") [])) "hello" "me" = 1 :=
  claim_C1_pending_echo_then_one [] 0 "hello" "me" "c9" (Message.mk "101" "hello" "me" "c9")
    (by simp [ids]) (by simp) rfl rfl

/-- C2 counterexample: a still-unresolved pending entry does not survive an
interleaved confirmed-batch application: ChatView.load replaces the whole
list, so applying the (empty) authoritative batch removes the pending
entry instead of keeping it appended after the confirmed messages. -/
theorem claim_C2_counterexample :
    mkOptimistic 0 "hi" "me" "c9" ∈ [mkOptimistic 0 "hi" "me" "c9"] ∧
      chatLoad [] [mkOptimistic 0 "hi" "me" "c9"] = [] :=
  ⟨List.mem_singleton.mpr rfl, rfl⟩

/-- C2 amended: applying a confirmed batch replaces the whole rendered
sequence with exactly the batch in the order the server returned it;
pending messages do not survive the application — any entry (in particular
a still-unresolved pending one) that is not in the batch is absent
afterwards. -/
theorem claim_C2_batch_replaces (msgs st : List Message) :
    run st [Ev.poll msgs] = msgs ∧
      ∀ p, p ∉ msgs → p ∉ run st [Ev.poll msgs] := by
  exact ⟨rfl, fun p hp => hp⟩

/-- Witness for C2 amended at a concrete batch, state and pending entry. -/
theorem claim_C2_witness :
    run [mkOptimistic 0 "hi" "me" "c9"] [Ev.poll [Message.mk "101" "yo" "me" "c9"]] =
        [Message.mk "101" "yo" "me" "c9"] ∧
      mkOptimistic 0 "hi" "me" "c9" ∉
        run [mkOptimistic 0 "hi" "me" "c9"] [Ev.poll [Message.mk "101" "yo" "me" "c9"]] :=
  ⟨(claim_C2_batch_replaces [Message.mk "101" "yo" "me" "c9"] [mkOptimistic 0 "hi" "me" "c9"]).1,
   (claim_C2_batch_replaces [Message.mk "101" "yo" "me" "c9"]
      [mkOptimistic 0 "hi" "me" "c9"]).2 (mkOptimistic 0 "hi" "me" "c9") (by decide)⟩

/-- Ids of consecutive lists. -/
lemma ids_append (a b : List Message) : ids (a ++ b) = ids a ++ ids b :=
  List.map_append _ a b

/-- Environment well-formedness of one interleaved event with respect to
one particular send, whose pending id is `tmp` and whose server-assigned id
is `cid`: other optimistic appends use other local ids and never a server
id, the resolution for `tmp` delivers the message the server stored for it
(id `cid`) while other resolutions deliver other server messages, and a
polled confirmed batch contains only server messages (never the local id
`tmp`; it may or may not already contain `cid`). -/
def benign (tmp cid : String) : Ev → Bool
  | Ev.start o => o.id != tmp && o.id != cid
  | Ev.ok t m => if t == tmp then m.id == cid else (m.id != tmp && m.id != cid)
  | Ev.err _ => true
  | Ev.poll batch => !((ids batch).contains tmp)

/-- One benign event preserves mutual exclusion of a pending entry and its
confirmed counterpart in the rendered list. -/
lemma step_no_coexist (tmp cid : String) (hne : tmp ≠ cid)
    (st : List Message) (e : Ev) (hb : benign tmp cid e = true)
    (h : ¬(tmp ∈ ids st ∧ cid ∈ ids st)) :
    ¬(tmp ∈ ids (step st e) ∧ cid ∈ ids (step st e)) := by
  cases e with
  | start o =>
      simp only [benign, Bool.and_eq_true, bne_iff_ne] at hb
      obtain ⟨hb1, hb2⟩ := hb
      rintro ⟨ht, hc⟩
      simp only [step, sendStart, ids_append] at ht hc
      rcases List.mem_append.mp ht with ht0 | ht1
      · rcases List.mem_append.mp hc with hc0 | hc1
        · exact h ⟨ht0, hc0⟩
        · have hcid : cid = o.id := by simpa [ids] using hc1
          exact hb2 hcid.symm
      · have htmp : tmp = o.id := by simpa [ids] using ht1
        exact hb1 htmp.symm
  | ok t m =>
      rintro ⟨ht, hc⟩
      by_cases htmp : t = tmp
      · subst htmp
        have hm : m.id = cid := by simpa [benign] using hb
        obtain ⟨x, hx, hxid⟩ := mem_ids.mp ht
        obtain ⟨y, hy, hfy⟩ := List.mem_map.mp (by simpa [step, sendOk] using hx)
        by_cases hyid : y.id = t
        · rw [if_pos hyid] at hfy
          subst hfy
          exact hne (hxid ▸ hm ▸ rfl)
        · rw [if_neg hyid] at hfy
          subst hfy
          exact hyid hxid
      · have hm : m.id ≠ tmp ∧ m.id ≠ cid := by
          simpa [benign, htmp, bne_iff_ne] using hb
        have ht0 : tmp ∈ ids st := by
          obtain ⟨x, hx, hxid⟩ := mem_ids.mp ht
          obtain ⟨y, hy, hfy⟩ := List.mem_map.mp (by simpa [step, sendOk] using hx)
          by_cases hyid : y.id = t
          · rw [if_pos hyid] at hfy
            exact absurd (hfy ▸ hxid) hm.1
          · rw [if_neg hyid] at hfy
            exact mem_ids.mpr ⟨y, hy, hfy ▸ hxid⟩
        have hc0 : cid ∈ ids st := by
          obtain ⟨x, hx, hxid⟩ := mem_ids.mp hc
          obtain ⟨y, hy, hfy⟩ := List.mem_map.mp (by simpa [step, sendOk] using hx)
          by_cases hyid : y.id = t
          · rw [if_pos hyid] at hfy
            exact absurd (hfy ▸ hxid) hm.2
          · rw [if_neg hyid] at hfy
            exact mem_ids.mpr ⟨y, hy, hfy ▸ hxid⟩
        exact h ⟨ht0, hc0⟩
  | err t =>
      rintro ⟨ht, hc⟩
      obtain ⟨x, hx, hxid⟩ := mem_ids.mp ht
      obtain ⟨y, hy, hyid⟩ := mem_ids.mp hc
      have hx' : x ∈ st ∧ ¬x.id = t := by simpa [step, sendErr] using hx
      have hy' : y ∈ st ∧ ¬y.id = t := by simpa [step, sendErr] using hy
      exact h ⟨mem_ids.mpr ⟨x, hx'.1, hxid⟩, mem_ids.mpr ⟨y, hy'.1, hyid⟩⟩
  | poll batch =>
      rintro ⟨ht, _⟩
      have hmem : tmp ∈ ids batch := by simpa [step, chatLoad] using ht
      simp [benign, hmem] at hb

/-- Benign event sequences preserve mutual exclusion through any
interleaving. -/
lemma run_no_coexist (tmp cid : String) (hne : tmp ≠ cid) :
    ∀ (evs : List Ev) (st : List Message),
      (∀ e ∈ evs, benign tmp cid e = true) →
      ¬(tmp ∈ ids st ∧ cid ∈ ids st) →
      ¬(tmp ∈ ids (run st evs) ∧ cid ∈ ids (run st evs)) := by
  intro evs
  induction evs with
  | nil =>
      intro st _ h
      simpa [run] using h
  | cons e rest ih =>
      intro st hb h
      have h1 := step_no_coexist tmp cid hne st e (hb e (by simp)) h
      exact ih (step st e) (fun x hx => hb x (by simp [hx])) h1

/-- C3 counterexample: the clause that the pending entry is removed exactly
when its confirmed counterpart appears is false: right after submission the
pending entry is rendered, yet applying an interleaved confirmed batch
(here the empty authoritative window) removes it while no confirmed
counterpart appears at all. -/
theorem claim_C3_counterexample :
    optimisticId 0 ∈ ids (run [] [Ev.start (mkOptimistic 0 "hi" "me" "c9")]) ∧
      run [] [Ev.start (mkOptimistic 0 "hi" "me" "c9"), Ev.poll []] = [] := by
  exact ⟨by decide, rfl⟩

/-- C3 amended: under every interleaving of sends, send resolutions and
confirmed-batch applications that is well formed with respect to a given
send (fresh local id, server batches containing only server messages, the
send's resolution delivering the server message stored for it), the
rendered sequence never contains both the send's pending entry and its
confirmed counterpart.  However a pending entry can also disappear without
its confirmed counterpart appearing (a batch application replaces the
list), so removal happens at the latest when, not exactly when, the
confirmed entry appears. -/
theorem claim_C3_no_coexistence (st0 : List Message) (now : Nat)
    (text meId convId cid : String)
    (hne : optimisticId now ≠ cid)
    (_h1 : optimisticId now ∉ ids st0) (h2 : cid ∉ ids st0)
    (evs : List Ev)
    (hevs : ∀ e ∈ evs, benign (optimisticId now) cid e = true) :
    ¬(optimisticId now ∈ ids (run (sendStart (mkOptimistic now text meId convId) st0) evs) ∧
        cid ∈ ids (run (sendStart (mkOptimistic now text meId convId) st0) evs)) := by
  apply run_no_coexist _ _ hne _ _ hevs
  rintro ⟨-, hc⟩
  rw [sendStart, ids_append] at hc
  rcases List.mem_append.mp hc with hc0 | hc1
  · exact h2 hc0
  · exact hne ((by simpa [ids, mkOptimistic] using hc1 : cid = optimisticId now)).symm

/-- Witness for C3 amended: a send interleaved with a poll that already
contains the confirmed counterpart, followed by the send's own successful
resolution. -/
theorem claim_C3_witness :
    ¬(optimisticId 0 ∈
        ids (run (sendStart (mkOptimistic 0 "hi" "me" "c9") [])
          [Ev.poll [Message.mk "101" "hi" "me" "c9"],
            Ev.ok (optimisticId 0) (Message.mk "101" "hi" "me" "c9")]) ∧
      "101" ∈
        ids (run (sendStart (mkOptimistic 0 "hi" "me" "c9") [])
          [Ev.poll [Message.mk "101" "hi" "me" "c9"],
            Ev.ok (optimisticId 0) (Message.mk "101" "hi" "me" "c9")])) :=
  claim_C3_no_coexistence [] 0 "hi" "me" "c9" "101" (by decide) (by decide) (by decide)
    [Ev.poll [Message.mk "101" "hi" "me" "c9"],
      Ev.ok (optimisticId 0) (Message.mk "101" "hi" "me" "c9")] (by decide)

/-- C6 counterexample: for the open-conversation message loop, a fetch
issued before the effect cleanup whose response arrives after the cleanup
is not discarded: the cleanup only clears the interval, and the late
response still replaces the messages state. -/
theorem claim_C6_counterexample :
    chatResponse []
        (chatCleanup (ChatPoll.mk true [Message.mk "101" "hi" "me" "c9"])) ≠
      chatCleanup (ChatPoll.mk true [Message.mk "101" "hi" "me" "c9"]) := by
  decide

/-- C6 amended: stopping the conversation-list loop guarantees no
subsequent state mutation from it — the closure flag set by its cleanup
makes a late-arriving response a no-op; stopping the message loop prevents
any further scheduled fetch from being issued, but a response to a fetch
already in flight is still applied to the messages state when it
arrives. -/
theorem claim_C6_stop_behavior (st : HomePoll) (cs : List Conversation)
    (cp : ChatPoll) :
    homeResponse cs (homeCleanup st) = homeCleanup st ∧
      chatTickFetches (chatCleanup cp) = false := by
  constructor
  · simp [homeResponse, homeCleanup]
  · rfl

/-- Digit characters are injective on decimal digits. -/
lemma digitChar_inj_lt : ∀ d < 10, ∀ e < 10,
    Nat.digitChar d = Nat.digitChar e → d = e := by
  decide

/-- Mapping to digit characters is injective on lists of decimal digits. -/
lemma map_digitChar_inj : ∀ l1 l2 : List Nat, (∀ d ∈ l1, d < 10) →
    (∀ d ∈ l2, d < 10) → l1.map Nat.digitChar = l2.map Nat.digitChar → l1 = l2 := by
  intro l1
  induction l1 with
  | nil =>
      intro l2 _ _ hmap
      cases l2 with
      | nil => rfl
      | cons b t => simp at hmap
  | cons a t ih =>
      intro l2 hb1 hb2 hmap
      cases l2 with
      | nil => simp at hmap
      | cons b t2 =>
          simp only [List.map_cons, List.cons.injEq] at hmap
          have ha : a = b := digitChar_inj_lt a (hb1 a (by simp)) b (hb2 b (by simp)) hmap.1
          have ht : t = t2 := ih t2 (fun d hd => hb1 d (by simp [hd]))
            (fun d hd => hb2 d (by simp [hd])) hmap.2
          rw [ha, ht]

/-- The decimal digit lists of a natural number determine it. -/
lemma natToStringData_inj : ∀ m n : Nat, natToStringData m = natToStringData n → m = n := by
  have key : ∀ m n : Nat, m ≠ 0 → n ≠ 0 →
      natToStringData m = natToStringData n → m = n := by
    intro m n hm hn h
    unfold natToStringData at h
    rw [if_neg hm, if_neg hn] at h
    have h1 := List.reverse_injective h
    have h2 := map_digitChar_inj _ _
      (fun d hd => Nat.digits_lt_base (by norm_num) hd)
      (fun d hd => Nat.digits_lt_base (by norm_num) hd) h1
    have h3 := congrArg (Nat.ofDigits 10) h2
    rwa [Nat.ofDigits_digits, Nat.ofDigits_digits] at h3
  have zeroCase : ∀ n : Nat, n ≠ 0 → natToStringData 0 ≠ natToStringData n := by
    intro n hn h
    unfold natToStringData at h
    rw [if_pos rfl, if_neg hn] at h
    have h1 := List.reverse_injective (by simpa using h.symm)
    have h2 := map_digitChar_inj _ ['0'.toNat - 48 + 0]
      (fun d hd => Nat.digits_lt_base (by norm_num) hd) (by decide)
      (by simpa using h1)
    have h3 := congrArg (Nat.ofDigits 10) h2
    rw [Nat.ofDigits_digits] at h3
    simp [Nat.ofDigits] at h3
    exact hn h3
  intro m n h
  by_cases hm : m = 0
  · by_cases hn : n = 0
    · rw [hm, hn]
    · exact absurd (hm ▸ h) (zeroCase n hn)
  · by_cases hn : n = 0
    · exact absurd (hn ▸ h.symm) (zeroCase m hm)
    · exact key m n hm hn h

/-- The decimal rendering of a timestamp is injective. -/
lemma natToString_inj {m n : Nat} (h : natToString m = natToString n) : m = n :=
  natToStringData_inj m n (congrArg String.data h)

/-- C7 counterexample: two distinct sends performed in the same clock
millisecond receive the same local pending identifier, and resolving the
first send then replaces both optimistic entries, rendering the confirmed
message twice. -/
theorem claim_C7_counterexample :
    mkOptimistic 0 "first" "me" "c9" ≠ mkOptimistic 0 "second" "me" "c9" ∧
      (mkOptimistic 0 "first" "me" "c9").id = (mkOptimistic 0 "second" "me" "c9").id ∧
      run [] [Ev.start (mkOptimistic 0 "first" "me" "c9"),
          Ev.start (mkOptimistic 0 "second" "me" "c9"),
          Ev.ok (optimisticId 0) (Message.mk "101" "first" "me" "c9")] =
        [Message.mk "101" "first" "me" "c9", Message.mk "101" "first" "me" "c9"] := by
  refine ⟨by decide, rfl, by decide⟩

/-- C7 amended: the local pending identifier is derived from the
millisecond clock, so two sends receive distinct identifiers provided
their clock readings differ (sends within the same millisecond collide);
and a pending identifier never collides with a server identifier provided
no server identifier has the tmp-prefixed shape of local ones. -/
theorem claim_C7_id_freshness (n1 n2 : Nat) (sid : String)
    (hn : n1 ≠ n2) (hs : ∀ s, sid ≠ "tmp-" ++ s) :
    optimisticId n1 ≠ optimisticId n2 ∧ sid ≠ optimisticId n1 := by
  constructor
  · intro h
    apply hn
    apply natToString_inj
    have h1 := congrArg String.data h
    simp only [optimisticId, String.data_append] at h1
    exact congrArg String.mk (List.append_cancel_left h1)
  · exact hs (natToString n1)

/-- Witness for C7 amended: clock readings 0 and 1 and the server id 101. -/
theorem claim_C7_witness :
    optimisticId 0 ≠ optimisticId 1 ∧ "101" ≠ optimisticId 0 :=
  claim_C7_id_freshness 0 1 "101" (by decide)
    (fun s hcontra => by
      have h1 := congrArg String.length hcontra
      rw [String.length_append] at h1
      have h2 : ("101" : String).length = 3 := rfl
      have h3 : ("tmp-" : String).length = 4 := rfl
      omega)

end ChatApp
